import Mathlib

/-
Verification development for the CultivaLab crop-simulation core.

This file is a shallow embedding of the repository's core:
  - the domain model (models.py),
  - the file-backed JSON persistence layer (storage.py),
  - the crop lifecycle service and growth simulation engine (services.py).

Embedding conventions:
  - Python floats are modelled as real numbers; Python ints as Int/Nat.
  - The persisted JSON file is modelled as `Option DBFile` (None = file does
    not exist), each JSON record as a typed "json" structure whose only
    conversions, exactly as in storage.py, are role (enum <-> string) and
    the crop date fields (datetime <-> ISO-8601 string).
  - Python exceptions are modelled as an error type returned via Except;
    mutating operations return the (possibly unchanged) file state together
    with the result, mirroring the fact that a raise aborts before any write.
  - datetime.isoformat / datetime.fromisoformat are external stdlib
    primitives; they are embedded concretely as the digit-level ISO encoding
    of naive datetimes ("YYYY-MM-DDTHH:MM:SS[.ffffff]") and its inverse.
  - uuid.uuid4() is an external random source; it is modelled as an explicit
    parameter of create_crop.
  - models.py's dataclass declarations are an earlier revision of the model:
    DailyCondition declares `expected_biomass = float` as a bare class-level
    assignment (not a field) and Crop omits the `name` field, while every
    constructor call and attribute access in services.py and storage.py uses
    `estimated_biomass` and `name` as regular fields.  Following the stated
    resolution of this inconsistency in the design notes, the embedding uses
    the final field names as the call sites do.
  - Python float division by zero raises ZeroDivisionError; the reachable
    zero-divisor cases of the growth engine (optimal_temp = 0 or
    potential_performance = 0) are modelled by an explicit error case in
    simulate_day, placed where the computation would first raise.
-/

/-! ## Naive datetimes and their ISO-8601 marshalling -/

/-- A naive (timezone-free) Python `datetime.datetime` value. -/
structure DateTime where
  year : ℕ
  month : ℕ
  day : ℕ
  hour : ℕ
  minute : ℕ
  second : ℕ
  microsecond : ℕ
  deriving DecidableEq

/-- The field bounds that every Python `datetime` object satisfies by
construction (the constructor validates them). -/
def DateTime.Valid (d : DateTime) : Prop :=
  1 ≤ d.year ∧ d.year ≤ 9999 ∧ 1 ≤ d.month ∧ d.month ≤ 12 ∧
  1 ≤ d.day ∧ d.day ≤ 31 ∧ d.hour ≤ 23 ∧ d.minute ≤ 59 ∧
  d.second ≤ 59 ∧ d.microsecond ≤ 999999

/-- Numeric value of a decimal digit character. -/
def char_digit (c : Char) : ℕ := c.toNat - 48

/-- Two-digit zero-padded decimal rendering (Python's %02d). -/
def two_digits (n : ℕ) : List Char :=
  [Nat.digitChar (n / 10), Nat.digitChar (n % 10)]

/-- Four-digit zero-padded decimal rendering (Python's %04d). -/
def four_digits (n : ℕ) : List Char :=
  [Nat.digitChar (n / 1000), Nat.digitChar (n / 100 % 10),
   Nat.digitChar (n / 10 % 10), Nat.digitChar (n % 10)]

/-- Six-digit zero-padded decimal rendering (Python's %06d). -/
def six_digits (n : ℕ) : List Char :=
  [Nat.digitChar (n / 100000), Nat.digitChar (n / 10000 % 10),
   Nat.digitChar (n / 1000 % 10), Nat.digitChar (n / 100 % 10),
   Nat.digitChar (n / 10 % 10), Nat.digitChar (n % 10)]

/-- Character sequence of `datetime.isoformat()` for a naive datetime:
"YYYY-MM-DDTHH:MM:SS", with ".ffffff" appended exactly when the
microsecond field is nonzero. -/
def iso_chars (d : DateTime) : List Char :=
  four_digits d.year ++ '-' ::
  (two_digits d.month ++ '-' ::
  (two_digits d.day ++ 'T' ::
  (two_digits d.hour ++ ':' ::
  (two_digits d.minute ++ ':' ::
  (two_digits d.second ++
    (if d.microsecond = 0 then [] else '.' :: six_digits d.microsecond))))))

/-- Python `datetime.isoformat()` on a naive datetime. -/
def DateTime.isoformat (d : DateTime) : String := String.mk (iso_chars d)

/-- Value of two decimal digit characters. -/
def two_val (a b : Char) : ℕ := 10 * char_digit a + char_digit b

/-- Value of four decimal digit characters. -/
def four_val (a b c d : Char) : ℕ :=
  1000 * char_digit a + 100 * char_digit b + 10 * char_digit c + char_digit d

/-- Value of six decimal digit characters. -/
def six_val (a b c d e f : Char) : ℕ :=
  100000 * char_digit a + 10000 * char_digit b + 1000 * char_digit c +
  100 * char_digit d + 10 * char_digit e + char_digit f

/-- Positional parser for the two shapes produced by `DateTime.isoformat`
(Python's `datetime.fromisoformat` accepts exactly the output of
`isoformat`; shapes that cannot come from `isoformat` are rejected). -/
def parse_iso_chars : List Char → Option DateTime
  | [y1, y2, y3, y4, '-', a1, a2, '-', b1, b2, 'T',
     h1, h2, ':', m1, m2, ':', s1, s2] =>
    some ⟨four_val y1 y2 y3 y4, two_val a1 a2, two_val b1 b2,
          two_val h1 h2, two_val m1 m2, two_val s1 s2, 0⟩
  | [y1, y2, y3, y4, '-', a1, a2, '-', b1, b2, 'T',
     h1, h2, ':', m1, m2, ':', s1, s2, '.', u1, u2, u3, u4, u5, u6] =>
    some ⟨four_val y1 y2 y3 y4, two_val a1 a2, two_val b1 b2,
          two_val h1 h2, two_val m1 m2, two_val s1 s2,
          six_val u1 u2 u3 u4 u5 u6⟩
  | _ => none

/-- Python `datetime.fromisoformat` restricted to the naive-datetime
grammar that `isoformat` emits. -/
def DateTime.fromisoformat (s : String) : Option DateTime :=
  parse_iso_chars s.data

theorem char_digit_digitChar (n : ℕ) (h : n < 10) :
    char_digit (Nat.digitChar n) = n := by
  interval_cases n <;> decide

theorem two_val_two_digits (n : ℕ) (h : n < 100) :
    two_val (Nat.digitChar (n / 10)) (Nat.digitChar (n % 10)) = n := by
  have h1 : n / 10 < 10 := by omega
  have h2 : n % 10 < 10 := by omega
  simp only [two_val, char_digit_digitChar _ h1, char_digit_digitChar _ h2]
  omega

theorem four_val_four_digits (n : ℕ) (h : n < 10000) :
    four_val (Nat.digitChar (n / 1000)) (Nat.digitChar (n / 100 % 10))
      (Nat.digitChar (n / 10 % 10)) (Nat.digitChar (n % 10)) = n := by
  have h1 : n / 1000 < 10 := by omega
  have h2 : n / 100 % 10 < 10 := by omega
  have h3 : n / 10 % 10 < 10 := by omega
  have h4 : n % 10 < 10 := by omega
  simp only [four_val, char_digit_digitChar _ h1, char_digit_digitChar _ h2,
    char_digit_digitChar _ h3, char_digit_digitChar _ h4]
  omega

theorem six_val_six_digits (n : ℕ) (h : n < 1000000) :
    six_val (Nat.digitChar (n / 100000)) (Nat.digitChar (n / 10000 % 10))
      (Nat.digitChar (n / 1000 % 10)) (Nat.digitChar (n / 100 % 10))
      (Nat.digitChar (n / 10 % 10)) (Nat.digitChar (n % 10)) = n := by
  have h1 : n / 100000 < 10 := by omega
  have h2 : n / 10000 % 10 < 10 := by omega
  have h3 : n / 1000 % 10 < 10 := by omega
  have h4 : n / 100 % 10 < 10 := by omega
  have h5 : n / 10 % 10 < 10 := by omega
  have h6 : n % 10 < 10 := by omega
  simp only [six_val, char_digit_digitChar _ h1, char_digit_digitChar _ h2,
    char_digit_digitChar _ h3, char_digit_digitChar _ h4,
    char_digit_digitChar _ h5, char_digit_digitChar _ h6]
  omega

/-- The marshalling round trip on dates: `fromisoformat` inverts
`isoformat` on every valid naive datetime. -/
theorem fromisoformat_isoformat (d : DateTime) (h : d.Valid) :
    DateTime.fromisoformat (DateTime.isoformat d) = some d := by
  obtain ⟨hy1, hy2, hm1, hm2, hd1, hd2, hh, hmin, hs, hus⟩ := h
  unfold DateTime.fromisoformat DateTime.isoformat
  by_cases hms : d.microsecond = 0
  · simp only [iso_chars, four_digits, two_digits, six_digits, hms,
      eq_self_iff_true, if_true, List.cons_append, List.nil_append,
      List.append_nil]
    simp only [parse_iso_chars]
    rw [four_val_four_digits _ (by omega), two_val_two_digits _ (by omega),
      two_val_two_digits _ (by omega), two_val_two_digits _ (by omega),
      two_val_two_digits _ (by omega), two_val_two_digits _ (by omega)]
    rw [← hms]
  · simp only [iso_chars, four_digits, two_digits, six_digits,
      if_neg hms, List.cons_append, List.nil_append, List.append_nil]
    simp only [parse_iso_chars]
    rw [four_val_four_digits _ (by omega), two_val_two_digits _ (by omega),
      two_val_two_digits _ (by omega), two_val_two_digits _ (by omega),
      two_val_two_digits _ (by omega), two_val_two_digits _ (by omega),
      six_val_six_digits _ (by omega)]

/-- Number of days of a month in the proleptic Gregorian calendar
(used by Python's datetime arithmetic). -/
def days_in_month (y m : ℕ) : ℕ :=
  if m = 2 then (if (y % 4 = 0 ∧ y % 100 ≠ 0) ∨ y % 400 = 0 then 29 else 28)
  else if m = 4 ∨ m = 6 ∨ m = 9 ∨ m = 11 then 30 else 31

/-- Python `datetime + timedelta(days=1)` on a valid naive datetime
(the year-9999 overflow error is not modelled). -/
def add_one_day (d : DateTime) : DateTime :=
  if d.day < days_in_month d.year d.month then { d with day := d.day + 1 }
  else if d.month < 12 then { d with month := d.month + 1, day := 1 }
  else { d with year := d.year + 1, month := 1, day := 1 }

/-! ## Domain model (models.py, final-revision field set) -/

/-- UserRole enum: the two profile types. -/
inductive UserRole where
  | admin
  | user
  deriving DecidableEq

/-- String value of a role, as persisted (`user.role.value`). -/
def UserRole.value : UserRole → String
  | .admin => "admin"
  | .user => "user"

/-- Inverse conversion used on load (`UserRole(user["role"])`); an
unknown role string makes the conversion fail. -/
def UserRole.ofString (s : String) : Option UserRole :=
  if s = "admin" then some UserRole.admin
  else if s = "user" then some UserRole.user
  else none

/-- User dataclass. -/
structure User where
  id : String
  username : String
  password_hash : String
  role : UserRole
  crop_ids : List String

/-- CropType dataclass: an admin-defined species template. -/
structure CropType where
  id : String
  name : String
  optimal_temp : ℝ
  needed_water : ℝ
  needed_light : ℝ
  days_cycle : ℤ
  initial_biomass : ℝ
  potential_performance : ℝ

/-- DailyCondition dataclass: one simulated day's record. -/
structure DailyCondition where
  day : ℤ
  temperature : ℝ
  rain : ℝ
  sun_hours : ℝ
  estimated_biomass : ℝ

/-- Crop dataclass. -/
structure Crop where
  id : String
  name : String
  user_id : String
  crop_type_id : String
  start_date : DateTime
  last_sim_date : DateTime
  conditions : List DailyCondition
  active : Bool

/-! ## Persisted (marshalled) records and the JSON file (storage.py) -/

/-- A user entry of the JSON file: the role is stored as its string
value; all other fields are stored as they are. -/
structure UserJson where
  id : String
  username : String
  password_hash : String
  role : String
  crop_ids : List String

/-- A crop entry of the JSON file: the two date fields are stored as
ISO-8601 strings; conditions are stored field-for-field. -/
structure CropJson where
  id : String
  name : String
  user_id : String
  crop_type_id : String
  start_date : String
  last_sim_date : String
  conditions : List DailyCondition
  active : Bool

/-- The three top-level collections of the database dictionary. -/
structure DBData where
  users : List UserJson
  crops : List CropJson
  crop_types : List CropType

/-- A JSON file's contents; each key may be missing (`db.get(key, [])`). -/
structure DBFile where
  users_key : Option (List UserJson)
  crops_key : Option (List CropJson)
  crop_types_key : Option (List CropType)

/-- The file system slot of the store: `none` when the file at
`self.filepath` does not exist. -/
abbrev FS : Type := Option DBFile

/-- asdict plus role-to-string conversion performed by save_user. -/
def marshal_user (u : User) : UserJson :=
  ⟨u.id, u.username, u.password_hash, u.role.value, u.crop_ids⟩

/-- The record-to-User conversion performed by the user getters
(`User(**user_data)` after `UserRole(user["role"])`).  A role string
outside the enum makes the Python code raise; here it yields `none`. -/
def unmarshal_user (r : UserJson) : Option User :=
  (UserRole.ofString r.role).map fun ro =>
    ⟨r.id, r.username, r.password_hash, ro, r.crop_ids⟩

/-- asdict plus date-to-ISO conversion performed by save_crop. -/
def marshal_crop (c : Crop) : CropJson :=
  ⟨c.id, c.name, c.user_id, c.crop_type_id, c.start_date.isoformat,
   c.last_sim_date.isoformat, c.conditions, c.active⟩

/-- The record-to-Crop conversion performed by the crop getters
(`DailyCondition(**condition)` for each condition, then
`datetime.fromisoformat` on both date fields, then `Crop(**crop_data)`).
An unparseable date makes the Python code raise; here it yields `none`. -/
def unmarshal_crop (r : CropJson) : Option Crop :=
  match DateTime.fromisoformat r.start_date,
        DateTime.fromisoformat r.last_sim_date with
  | some sd, some ld =>
    some ⟨r.id, r.name, r.user_id, r.crop_type_id, sd, ld,
          r.conditions, r.active⟩
  | _, _ => none

namespace JSONStorage

/-- JSONStorage.read: a missing file yields the empty three-collection
dictionary; otherwise each top-level key defaults to the empty list. -/
def read (fs : FS) : DBData :=
  match fs with
  | none => ⟨[], [], []⟩
  | some f => ⟨f.users_key.getD [], f.crops_key.getD [],
               f.crop_types_key.getD []⟩

/-- JSONStorage.save: the whole structure is rewritten in full, with all
three keys present. -/
def save (data : DBData) : FS :=
  some ⟨some data.users, some data.crops, some data.crop_types⟩

/-- The id-scan loop shared by get_user_by_id and save_user. -/
def find_user : List UserJson → String → Option UserJson
  | [], _ => none
  | u :: rest, user_id =>
    if u.id = user_id then some u else find_user rest user_id

/-- The username-scan loop of get_user_by_username. -/
def find_user_by_username : List UserJson → String → Option UserJson
  | [], _ => none
  | u :: rest, username =>
    if u.username = username then some u else find_user_by_username rest username

/-- JSONStorage.get_users. -/
def get_users (fs : FS) : List User :=
  (read fs).users.filterMap unmarshal_user

/-- JSONStorage.get_user_by_id. -/
def get_user_by_id (fs : FS) (user_id : String) : Option User :=
  (find_user (read fs).users user_id).bind unmarshal_user

/-- JSONStorage.get_user_by_username. -/
def get_user_by_username (fs : FS) (username : String) : Option User :=
  (find_user_by_username (read fs).users username).bind unmarshal_user

/-- The upsert loop of save_user: replace the first entry carrying the
same id in place, otherwise append at the end. -/
def upsert_user : List UserJson → UserJson → List UserJson
  | [], m => [m]
  | u :: rest, m =>
    if u.id = m.id then m :: rest else u :: upsert_user rest m

/-- JSONStorage.save_user: read, upsert the marshalled record, save. -/
def save_user (fs : FS) (user : User) : FS :=
  save { read fs with
         users := upsert_user (read fs).users (marshal_user user) }

/-- The id-scan loop shared by get_crop_by_id, save_crop and delete_crop. -/
def find_crop : List CropJson → String → Option CropJson
  | [], _ => none
  | c :: rest, crop_id =>
    if c.id = crop_id then some c else find_crop rest crop_id

/-- JSONStorage.get_crops. -/
def get_crops (fs : FS) : List Crop :=
  (read fs).crops.filterMap unmarshal_crop

/-- JSONStorage.get_crop_by_id. -/
def get_crop_by_id (fs : FS) (crop_id : String) : Option Crop :=
  (find_crop (read fs).crops crop_id).bind unmarshal_crop

/-- JSONStorage.get_crops_by_user. -/
def get_crops_by_user (fs : FS) (user_id : String) : List Crop :=
  ((read fs).crops.filter fun c => c.user_id = user_id).filterMap
    unmarshal_crop

/-- JSONStorage.get_crops_by_type. -/
def get_crops_by_type (fs : FS) (crop_type_id : String) : List Crop :=
  ((read fs).crops.filter fun c => c.crop_type_id = crop_type_id).filterMap
    unmarshal_crop

/-- JSONStorage.get_active_crops. -/
def get_active_crops (fs : FS) : List Crop :=
  ((read fs).crops.filter fun c => c.active).filterMap unmarshal_crop

/-- The upsert loop of save_crop: replace the first entry carrying the
same id in place, otherwise append at the end. -/
def upsert_crop : List CropJson → CropJson → List CropJson
  | [], m => [m]
  | c :: rest, m =>
    if c.id = m.id then m :: rest else c :: upsert_crop rest m

/-- JSONStorage.save_crop: read, upsert the marshalled record, save. -/
def save_crop (fs : FS) (crop : Crop) : FS :=
  save { read fs with
         crops := upsert_crop (read fs).crops (marshal_crop crop) }

/-- Modelled from the spec: the crop-type accessors of the file-backed
store are declared in the `Database` protocol and called by the service
layer, but their implementation is not present in storage.py; per the
persistence contract they are the list-all / get-by-id / get-by-name
readers over the crop_types collection (crop-type records need no field
conversion). -/
def get_crop_types (fs : FS) : List CropType :=
  (read fs).crop_types

/-- Modelled from the spec: get-by-id reader over the crop_types
collection (see `get_crop_types`). -/
def get_crop_type_by_id (fs : FS) (crop_type_id : String) : Option CropType :=
  (read fs).crop_types.find? fun t => t.id = crop_type_id

/-- Modelled from the spec: get-by-name reader over the crop_types
collection (see `get_crop_types`). -/
def get_crop_type_by_name (fs : FS) (name : String) : Option CropType :=
  (read fs).crop_types.find? fun t => t.name = name

end JSONStorage

/-! ## Errors and the crop lifecycle service (services.py) -/

/-- The error kinds raised by the crop lifecycle service
(exceptions.py), plus an explicit case for Python's ZeroDivisionError
reachable in the growth arithmetic. -/
inductive CultivaLabError where
  | user_not_found
  | crop_not_found
  | crop_type_not_found
  | invalid_input
  | resource_ownership
  | zero_division
  deriving DecidableEq

namespace CropService

/-- Python whitespace characters stripped by str.strip() (ASCII range;
the less common Unicode space characters are not modelled). -/
def is_py_space (c : Char) : Bool :=
  c == ' ' || c == '\t' || c == '\n' || c == '\r' || c == '\x0b' || c == '\x0c'

/-- The condition `not name or not name.strip()`: the string is empty or
consists entirely of whitespace. -/
def is_blank (s : String) : Bool := s.data.all is_py_space

/-- The `crop.conditions[-1].estimated_biomass if crop.conditions else
crop_type.initial_biomass` expression, shared by
calculate_capacity_factor and simulate_day. -/
def current_biomass (crop : Crop) (crop_type : CropType) : ℝ :=
  match crop.conditions.getLast? with
  | some c => c.estimated_biomass
  | none => crop_type.initial_biomass

/-- CropService._calculate_environment_factor. -/
noncomputable def calculate_environment_factor (crop_type : CropType)
    (temperature rain sun_hours : ℝ) : ℝ :=
  (max 0 (1 - (|temperature - crop_type.optimal_temp| /
    crop_type.optimal_temp) * 0.5)) *
  (if 0 < crop_type.needed_water then min 1 (rain / crop_type.needed_water)
   else 1) *
  (if 0 < crop_type.needed_light
   then min 1 (sun_hours / crop_type.needed_light) else 1)

/-- The `phase = current_day / days_cycle` value of
_calculate_phase_factor, with `current_day = len(conditions) + 1`. -/
noncomputable def phase (crop : Crop) (crop_type : CropType) : ℝ :=
  ((crop.conditions.length : ℝ) + 1) / (crop_type.days_cycle : ℝ)

/-- CropService._calculate_phase_factor. -/
noncomputable def calculate_phase_factor (crop : Crop)
    (crop_type : CropType) : ℝ :=
  if phase crop crop_type < 0.2 then 0.5 + phase crop crop_type * 2.5
  else if phase crop crop_type < 0.7 then 1.0
  else max 0.2 (1.5 - phase crop crop_type)

/-- CropService._calculate_capacity_factor. -/
noncomputable def calculate_capacity_factor (crop : Crop)
    (crop_type : CropType) : ℝ :=
  max 0 ((crop_type.potential_performance - current_biomass crop crop_type) /
    crop_type.potential_performance)

/-- CropService._calculate_growth, with base_rate = 0.05 and the
`** 1.5` power as the real power. -/
noncomputable def calculate_growth (crop_type : CropType)
    (env_factor phase_factor capacity_factor : ℝ) : ℝ :=
  crop_type.potential_performance * 0.05 *
    ((env_factor * phase_factor * capacity_factor) ^ (1.5 : ℝ))

/-- The `new_biomass = min(current_biomass + growth,
potential_performance)` value computed by simulate_day. -/
noncomputable def new_biomass (crop : Crop) (crop_type : CropType)
    (temperature rain sun_hours : ℝ) : ℝ :=
  min (current_biomass crop crop_type +
        calculate_growth crop_type
          (calculate_environment_factor crop_type temperature rain sun_hours)
          (calculate_phase_factor crop crop_type)
          (calculate_capacity_factor crop crop_type))
      crop_type.potential_performance

/-- The mutation applied by the success tail of simulate_day: append the
new DailyCondition (day = len(conditions) + 1) and advance last_sim_date
by one day. -/
noncomputable def step_crop (crop : Crop) (crop_type : CropType)
    (temperature rain sun_hours : ℝ) : Crop :=
  { crop with
    conditions := crop.conditions ++
      [⟨(crop.conditions.length : ℤ) + 1, temperature, rain, sun_hours,
        new_biomass crop crop_type temperature rain sun_hours⟩],
    last_sim_date := add_one_day crop.last_sim_date }

/-- CropService.simulate_day.  The first component of the result is the
file state after the call (unchanged whenever an exception is raised,
since every check precedes the single save_crop call). -/
noncomputable def simulate_day (fs : FS) (crop_id user_id : String)
    (temperature rain sun_hours : ℝ) :
    FS × Except CultivaLabError Crop :=
  if 56.7 ≤ temperature ∨ temperature < -10 then
    (fs, Except.error CultivaLabError.invalid_input)
  else if rain < 0 then (fs, Except.error CultivaLabError.invalid_input)
  else if sun_hours < 0 ∨ 24 < sun_hours then
    (fs, Except.error CultivaLabError.invalid_input)
  else
    match JSONStorage.get_crop_by_id fs crop_id with
    | none => (fs, Except.error CultivaLabError.crop_not_found)
    | some crop =>
      match JSONStorage.get_crop_type_by_id fs crop.crop_type_id with
      | none => (fs, Except.error CultivaLabError.crop_type_not_found)
      | some crop_type =>
        if crop.active = false then
          (fs, Except.error CultivaLabError.invalid_input)
        else if crop.user_id ≠ user_id then
          (fs, Except.error CultivaLabError.resource_ownership)
        else if crop_type.days_cycle ≤ (crop.conditions.length : ℤ) then
          (fs, Except.error CultivaLabError.invalid_input)
        else if crop_type.optimal_temp = 0 ∨
            crop_type.potential_performance = 0 then
          (fs, Except.error CultivaLabError.zero_division)
        else
          (JSONStorage.save_crop fs
            (step_crop crop crop_type temperature rain sun_hours),
           Except.ok (step_crop crop crop_type temperature rain sun_hours))

/-- CropService.create_crop.  `new_crop_id` stands for the freshly drawn
`str(uuid.uuid4())`. -/
def create_crop (fs : FS) (new_crop_id name crop_type_id user_id : String)
    (start_date : DateTime) : FS × Except CultivaLabError Crop :=
  if (JSONStorage.get_user_by_id fs user_id).isNone then
    (fs, Except.error CultivaLabError.user_not_found)
  else if (JSONStorage.get_crop_type_by_id fs crop_type_id).isNone then
    (fs, Except.error CultivaLabError.crop_type_not_found)
  else if is_blank name then
    (fs, Except.error CultivaLabError.invalid_input)
  else
    (JSONStorage.save_crop fs
      ⟨new_crop_id, name, user_id, crop_type_id, start_date, start_date,
       [], true⟩,
     Except.ok
       ⟨new_crop_id, name, user_id, crop_type_id, start_date, start_date,
        [], true⟩)

/-- CropService.get_crop_by_id (read-only: no file state is written). -/
def get_crop_by_id (fs : FS) (crop_id requesting_user_id : String) :
    Except CultivaLabError Crop :=
  match JSONStorage.get_user_by_id fs requesting_user_id with
  | none => Except.error CultivaLabError.user_not_found
  | some requesting_user =>
    match JSONStorage.get_crop_by_id fs crop_id with
    | none => Except.error CultivaLabError.crop_not_found
    | some crop =>
      if requesting_user_id ≠ crop.user_id ∧
          requesting_user.role ≠ UserRole.admin then
        Except.error CultivaLabError.resource_ownership
      else Except.ok crop

/-- One keyword argument of update_crops: either one of the two
allow-listed fields with its new value, or any other attribute key. -/
inductive UpdateField where
  | name (value : String)
  | active (value : Bool)
  | other (key : String)

/-- Membership of the kwarg's key in `allowed_fields = ["name", "active"]`. -/
def UpdateField.is_allowed : UpdateField → Bool
  | .other _ => false
  | _ => true

/-- The `setattr(crop, key, value)` step for one allow-listed kwarg. -/
def apply_update (crop : Crop) : UpdateField → Crop
  | .name v => { crop with name := v }
  | .active v => { crop with active := v }
  | .other _ => crop

/-- CropService.update_crops: ownership-gated (owner or admin); any key
outside the allow-list rejects the whole call before any field is
applied; otherwise all kwargs are applied and the crop is saved. -/
def update_crops (fs : FS) (crop_id requesting_user_id : String)
    (kwargs : List UpdateField) : FS × Except CultivaLabError Crop :=
  match JSONStorage.get_user_by_id fs requesting_user_id with
  | none => (fs, Except.error CultivaLabError.user_not_found)
  | some requesting_user =>
    match JSONStorage.get_crop_by_id fs crop_id with
    | none => (fs, Except.error CultivaLabError.crop_not_found)
    | some crop =>
      if requesting_user_id ≠ crop.user_id ∧
          requesting_user.role ≠ UserRole.admin then
        (fs, Except.error CultivaLabError.resource_ownership)
      else if kwargs.any (fun f => !f.is_allowed) then
        (fs, Except.error CultivaLabError.invalid_input)
      else
        (JSONStorage.save_crop fs (kwargs.foldl apply_update crop),
         Except.ok (kwargs.foldl apply_update crop))

end CropService

/-! ## Arithmetic facts about the growth engine -/

theorem calculate_environment_factor_nonneg (crop_type : CropType)
    (temperature rain sun_hours : ℝ) (hR : 0 ≤ rain) (hS : 0 ≤ sun_hours) :
    0 ≤ CropService.calculate_environment_factor crop_type temperature
      rain sun_hours := by
  unfold CropService.calculate_environment_factor
  have h1 : (0 : ℝ) ≤ max 0 (1 - (|temperature - crop_type.optimal_temp| /
      crop_type.optimal_temp) * 0.5) := le_max_left _ _
  have h2 : (0 : ℝ) ≤ (if 0 < crop_type.needed_water
      then min 1 (rain / crop_type.needed_water) else 1) := by
    split
    · exact le_min (by norm_num) (div_nonneg hR (by linarith))
    · norm_num
  have h3 : (0 : ℝ) ≤ (if 0 < crop_type.needed_light
      then min 1 (sun_hours / crop_type.needed_light) else 1) := by
    split
    · exact le_min (by norm_num) (div_nonneg hS (by linarith))
    · norm_num
  exact mul_nonneg (mul_nonneg h1 h2) h3

theorem calculate_phase_factor_nonneg (crop : Crop) (crop_type : CropType)
    (hdc : 0 < crop_type.days_cycle) :
    0 ≤ CropService.calculate_phase_factor crop crop_type := by
  have hph : 0 ≤ CropService.phase crop crop_type := by
    unfold CropService.phase
    have : (0 : ℝ) < (crop_type.days_cycle : ℝ) := by exact_mod_cast hdc
    positivity
  unfold CropService.calculate_phase_factor
  split
  · linarith
  split
  · norm_num
  · exact le_trans (by norm_num) (le_max_left _ _)

theorem calculate_capacity_factor_nonneg (crop : Crop)
    (crop_type : CropType) :
    0 ≤ CropService.calculate_capacity_factor crop crop_type :=
  le_max_left _ _

theorem calculate_growth_nonneg (crop_type : CropType)
    (env_factor phase_factor capacity_factor : ℝ)
    (he : 0 ≤ env_factor) (hp : 0 ≤ phase_factor)
    (hc : 0 ≤ capacity_factor)
    (hpp : 0 ≤ crop_type.potential_performance) :
    0 ≤ CropService.calculate_growth crop_type env_factor phase_factor
      capacity_factor := by
  unfold CropService.calculate_growth
  have hbase : 0 ≤ env_factor * phase_factor * capacity_factor := by
    positivity
  exact mul_nonneg (mul_nonneg hpp (by norm_num))
    (Real.rpow_nonneg hbase _)

/-- The appended biomass lies between the current biomass and the
potential-performance ceiling, provided the current biomass does not
already exceed the ceiling. -/
theorem new_biomass_bounds (crop : Crop) (crop_type : CropType)
    (temperature rain sun_hours : ℝ) (hR : 0 ≤ rain) (hS : 0 ≤ sun_hours)
    (hdc : 0 < crop_type.days_cycle)
    (hpp : 0 < crop_type.potential_performance)
    (hcur : CropService.current_biomass crop crop_type ≤
      crop_type.potential_performance) :
    CropService.current_biomass crop crop_type ≤
      CropService.new_biomass crop crop_type temperature rain sun_hours ∧
    CropService.new_biomass crop crop_type temperature rain sun_hours ≤
      crop_type.potential_performance := by
  have hg : 0 ≤ CropService.calculate_growth crop_type
      (CropService.calculate_environment_factor crop_type temperature
        rain sun_hours)
      (CropService.calculate_phase_factor crop crop_type)
      (CropService.calculate_capacity_factor crop crop_type) :=
    calculate_growth_nonneg _ _ _ _
      (calculate_environment_factor_nonneg _ _ _ _ hR hS)
      (calculate_phase_factor_nonneg _ _ hdc)
      (calculate_capacity_factor_nonneg _ _) hpp.le
  unfold CropService.new_biomass
  constructor
  · exact le_min (le_add_of_nonneg_right hg) hcur
  · exact min_le_right _ _

/-! ## The two execution shapes of simulate_day -/

/-- When every precondition holds, simulate_day performs exactly the
step_crop mutation and persists it. -/
theorem simulate_day_success (fs : FS) (crop_id user_id : String)
    (temperature rain sun_hours : ℝ) (crop : Crop) (crop_type : CropType)
    (hcrop : JSONStorage.get_crop_by_id fs crop_id = some crop)
    (hct : JSONStorage.get_crop_type_by_id fs crop.crop_type_id =
      some crop_type)
    (hT : ¬(56.7 ≤ temperature ∨ temperature < -10))
    (hR : ¬(rain < 0)) (hS : ¬(sun_hours < 0 ∨ 24 < sun_hours))
    (ha : crop.active = true) (hu : crop.user_id = user_id)
    (hlen : ¬(crop_type.days_cycle ≤ (crop.conditions.length : ℤ)))
    (hz : ¬(crop_type.optimal_temp = 0 ∨
      crop_type.potential_performance = 0)) :
    CropService.simulate_day fs crop_id user_id temperature rain sun_hours =
      (JSONStorage.save_crop fs
        (CropService.step_crop crop crop_type temperature rain sun_hours),
       Except.ok
        (CropService.step_crop crop crop_type temperature rain sun_hours)) := by
  unfold CropService.simulate_day
  rw [if_neg hT, if_neg hR, if_neg hS]
  simp only [hcrop, hct]
  rw [if_neg (by simp [ha]), if_neg (by simp [hu]), if_neg hlen, if_neg hz]

/-- Inversion: a successful simulate_day run implies that every check
passed and that the result is exactly the persisted step_crop mutation. -/
theorem simulate_day_ok_inversion (fs : FS) (crop_id user_id : String)
    (temperature rain sun_hours : ℝ) (fs' : FS) (c' : Crop)
    (h : CropService.simulate_day fs crop_id user_id temperature rain
      sun_hours = (fs', Except.ok c')) :
    ∃ crop crop_type,
      JSONStorage.get_crop_by_id fs crop_id = some crop ∧
      JSONStorage.get_crop_type_by_id fs crop.crop_type_id =
        some crop_type ∧
      0 ≤ rain ∧ 0 ≤ sun_hours ∧ crop.active = true ∧
      crop.user_id = user_id ∧
      (crop.conditions.length : ℤ) < crop_type.days_cycle ∧
      c' = CropService.step_crop crop crop_type temperature rain
        sun_hours ∧
      fs' = JSONStorage.save_crop fs
        (CropService.step_crop crop crop_type temperature rain sun_hours) := by
  unfold CropService.simulate_day at h
  by_cases h1 : 56.7 ≤ temperature ∨ temperature < -10
  · rw [if_pos h1] at h
    simp at h
  rw [if_neg h1] at h
  by_cases h2 : rain < 0
  · rw [if_pos h2] at h
    simp at h
  rw [if_neg h2] at h
  by_cases h3 : sun_hours < 0 ∨ 24 < sun_hours
  · rw [if_pos h3] at h
    simp at h
  rw [if_neg h3] at h
  cases hcrop : JSONStorage.get_crop_by_id fs crop_id with
  | none => rw [hcrop] at h; simp at h
  | some crop =>
    rw [hcrop] at h
    simp only [] at h
    cases hct : JSONStorage.get_crop_type_by_id fs crop.crop_type_id with
    | none => rw [hct] at h; simp at h
    | some crop_type =>
      rw [hct] at h
      simp only [] at h
      by_cases h4 : crop.active = false
      · rw [if_pos h4] at h; simp at h
      rw [if_neg h4] at h
      by_cases h5 : crop.user_id ≠ user_id
      · rw [if_pos h5] at h; simp at h
      rw [if_neg h5] at h
      by_cases h6 : crop_type.days_cycle ≤ (crop.conditions.length : ℤ)
      · rw [if_pos h6] at h; simp at h
      rw [if_neg h6] at h
      by_cases h7 : crop_type.optimal_temp = 0 ∨
          crop_type.potential_performance = 0
      · rw [if_pos h7] at h; simp at h
      rw [if_neg h7] at h
      rw [Prod.mk.injEq] at h
      obtain ⟨hfs, hok⟩ := h
      injection hok with hc'
      refine ⟨crop, crop_type, rfl, hct, le_of_not_lt h2, ?_,
        ?_, not_not.mp h5, lt_of_not_le h6, hc'.symm, hfs.symm⟩
      · rcases not_or.mp h3 with ⟨hs1, _⟩
        exact le_of_not_lt hs1
      · cases hb : crop.active
        · exact absurd hb h4
        · rfl

/-! ## Upsert and round-trip lemmas for the persistence layer -/

theorem upsert_user_append (l : List UserJson) (m : UserJson)
    (h : ∀ r ∈ l, r.id ≠ m.id) :
    JSONStorage.upsert_user l m = l ++ [m] := by
  induction l with
  | nil => rfl
  | cons u rest ih =>
    rw [JSONStorage.upsert_user,
      if_neg (h u (List.mem_cons_self u rest)), List.cons_append,
      ih fun r hr => h r (List.mem_cons_of_mem u hr)]

theorem upsert_user_replace (l1 : List UserJson) (r : UserJson)
    (l2 : List UserJson) (m : UserJson) (hr : r.id = m.id)
    (h1 : ∀ r' ∈ l1, r'.id ≠ m.id) :
    JSONStorage.upsert_user (l1 ++ r :: l2) m = l1 ++ m :: l2 := by
  induction l1 with
  | nil => simp only [List.nil_append, JSONStorage.upsert_user, if_pos hr]
  | cons u rest ih =>
    rw [List.cons_append, JSONStorage.upsert_user,
      if_neg (h1 u (List.mem_cons_self u rest)), List.cons_append,
      ih fun r' hr' => h1 r' (List.mem_cons_of_mem u hr')]

theorem upsert_crop_append (l : List CropJson) (m : CropJson)
    (h : ∀ r ∈ l, r.id ≠ m.id) :
    JSONStorage.upsert_crop l m = l ++ [m] := by
  induction l with
  | nil => rfl
  | cons c rest ih =>
    rw [JSONStorage.upsert_crop,
      if_neg (h c (List.mem_cons_self c rest)), List.cons_append,
      ih fun r hr => h r (List.mem_cons_of_mem c hr)]

theorem upsert_crop_replace (l1 : List CropJson) (r : CropJson)
    (l2 : List CropJson) (m : CropJson) (hr : r.id = m.id)
    (h1 : ∀ r' ∈ l1, r'.id ≠ m.id) :
    JSONStorage.upsert_crop (l1 ++ r :: l2) m = l1 ++ m :: l2 := by
  induction l1 with
  | nil => simp only [List.nil_append, JSONStorage.upsert_crop, if_pos hr]
  | cons c rest ih =>
    rw [List.cons_append, JSONStorage.upsert_crop,
      if_neg (h1 c (List.mem_cons_self c rest)), List.cons_append,
      ih fun r' hr' => h1 r' (List.mem_cons_of_mem c hr')]

/-- After upserting a crop record, scanning for its id finds exactly the
upserted record (the in-place replacement keeps the first-match
position; the append case is found after all non-matching entries). -/
theorem find_crop_upsert (l : List CropJson) (m : CropJson) :
    JSONStorage.find_crop (JSONStorage.upsert_crop l m) m.id = some m := by
  induction l with
  | nil => simp [JSONStorage.upsert_crop, JSONStorage.find_crop]
  | cons c rest ih =>
    by_cases hc : c.id = m.id
    · rw [JSONStorage.upsert_crop, if_pos hc, JSONStorage.find_crop,
        if_pos rfl]
    · rw [JSONStorage.upsert_crop, if_neg hc, JSONStorage.find_crop,
        if_neg hc, ih]

/-- The crop marshalling round trip: unmarshalling a marshalled crop
with valid dates restores it field for field. -/
theorem unmarshal_marshal_crop (crop : Crop)
    (h1 : crop.start_date.Valid) (h2 : crop.last_sim_date.Valid) :
    unmarshal_crop (marshal_crop crop) = some crop := by
  unfold unmarshal_crop marshal_crop
  simp only [fromisoformat_isoformat _ h1, fromisoformat_isoformat _ h2]

/-- Saving a crop and re-loading it by id restores it field for field. -/
theorem save_crop_roundtrip (fs : FS) (crop : Crop)
    (h1 : crop.start_date.Valid) (h2 : crop.last_sim_date.Valid) :
    JSONStorage.get_crop_by_id (JSONStorage.save_crop fs crop) crop.id =
      some crop := by
  unfold JSONStorage.get_crop_by_id JSONStorage.save_crop
  have hid : (marshal_crop crop).id = crop.id := rfl
  rw [show JSONStorage.read (JSONStorage.save
      { JSONStorage.read fs with
        crops := JSONStorage.upsert_crop (JSONStorage.read fs).crops
          (marshal_crop crop) }) =
      { JSONStorage.read fs with
        crops := JSONStorage.upsert_crop (JSONStorage.read fs).crops
          (marshal_crop crop) } from rfl]
  rw [← hid, find_crop_upsert]
  exact unmarshal_marshal_crop crop h1 h2

/-! ## Concrete fixtures used by witnesses and counterexamples -/

/-- A concrete valid naive datetime (2024-01-01 00:00:00). -/
def dt0 : DateTime := ⟨2024, 1, 1, 0, 0, 0, 0⟩

/-- A concrete regular user owning the scenario crop. -/
def user7 : User := ⟨"u7", "nikoloko", "h7", UserRole.user, []⟩

/-- A concrete admin user (not the owner of any crop). -/
def adminU : User := ⟨"uadm", "boss", "ha", UserRole.admin, []⟩

/-- The crop type of the documented scenario: optimal_temp 25,
needed_water 5, needed_light 8, days_cycle 10, initial_biomass 1,
potential_performance 100. -/
def ct7 : CropType := ⟨"t7", "maize", 25, 5, 8, 10, 1, 100⟩

/-- A fresh crop of type ct7 owned by user7. -/
def crop7 : Crop := ⟨"c7", "corn", "u7", "t7", dt0, dt0, [], true⟩

/-- Store holding user7, adminU, crop7 and ct7. -/
def fs7 : FS :=
  JSONStorage.save ⟨[marshal_user user7, marshal_user adminU],
    [marshal_crop crop7], [ct7]⟩

theorem lookup_crop7 : JSONStorage.get_crop_by_id fs7 crop7.id = some crop7 :=
  rfl

theorem lookup_ct7 :
    JSONStorage.get_crop_type_by_id fs7 crop7.crop_type_id = some ct7 := rfl

theorem lookup_user7 : JSONStorage.get_user_by_id fs7 user7.id = some user7 :=
  rfl

theorem lookup_adminU :
    JSONStorage.get_user_by_id fs7 adminU.id = some adminU := rfl

/-- The concrete successful first simulated day of the scenario. -/
theorem run7 : CropService.simulate_day fs7 crop7.id crop7.user_id 25 5 8 =
    (JSONStorage.save_crop fs7 (CropService.step_crop crop7 ct7 25 5 8),
     Except.ok (CropService.step_crop crop7 ct7 25 5 8)) :=
  simulate_day_success fs7 crop7.id crop7.user_id 25 5 8 crop7 ct7
    lookup_crop7 lookup_ct7 (by norm_num) (by norm_num) (by norm_num)
    rfl rfl (by simp [crop7, ct7]) (by simp [ct7])

/-- A crop type whose initial biomass (200) exceeds its potential
performance (100); otherwise identical to ct7. -/
def ct1x : CropType := ⟨"t1x", "odd", 25, 5, 8, 10, 200, 100⟩

/-- A fresh crop of type ct1x. -/
def crop1x : Crop := ⟨"c1x", "oddcrop", "u7", "t1x", dt0, dt0, [], true⟩

/-- Store holding crop1x and ct1x. -/
def fs1x : FS :=
  JSONStorage.save ⟨[marshal_user user7], [marshal_crop crop1x], [ct1x]⟩

theorem lookup_crop1x :
    JSONStorage.get_crop_by_id fs1x crop1x.id = some crop1x := rfl

theorem lookup_ct1x :
    JSONStorage.get_crop_type_by_id fs1x crop1x.crop_type_id = some ct1x :=
  rfl

theorem run1x :
    CropService.simulate_day fs1x crop1x.id crop1x.user_id 25 5 8 =
    (JSONStorage.save_crop fs1x (CropService.step_crop crop1x ct1x 25 5 8),
     Except.ok (CropService.step_crop crop1x ct1x 25 5 8)) :=
  simulate_day_success fs1x crop1x.id crop1x.user_id 25 5 8 crop1x ct1x
    lookup_crop1x lookup_ct1x (by norm_num) (by norm_num) (by norm_num)
    rfl rfl (by simp [crop1x, ct1x]) (by simp [ct1x])

/-- A crop type with a one-day cycle; otherwise identical to ct7. -/
def ctA : CropType := ⟨"tA", "radish", 25, 5, 8, 1, 1, 100⟩

/-- A fresh crop of type ctA. -/
def cropA : Crop := ⟨"cA", "quick", "u7", "tA", dt0, dt0, [], true⟩

/-- Store holding cropA and ctA. -/
def fsA : FS :=
  JSONStorage.save ⟨[marshal_user user7], [marshal_crop cropA], [ctA]⟩

theorem lookup_cropA :
    JSONStorage.get_crop_by_id fsA cropA.id = some cropA := rfl

theorem lookup_ctA :
    JSONStorage.get_crop_type_by_id fsA cropA.crop_type_id = some ctA := rfl

theorem runA : CropService.simulate_day fsA cropA.id cropA.user_id 25 5 8 =
    (JSONStorage.save_crop fsA (CropService.step_crop cropA ctA 25 5 8),
     Except.ok (CropService.step_crop cropA ctA 25 5 8)) :=
  simulate_day_success fsA cropA.id cropA.user_id 25 5 8 cropA ctA
    lookup_cropA lookup_ctA (by norm_num) (by norm_num) (by norm_num)
    rfl rfl (by simp [cropA, ctA]) (by simp [ctA])

/-- A crop of type ctA whose one-day cycle is already complete. -/
def cropB : Crop :=
  ⟨"cB", "done", "u7", "tA", dt0, dt0, [⟨1, 20, 1, 1, 2⟩], true⟩

/-- Store holding cropB and ctA. -/
def fsB : FS :=
  JSONStorage.save ⟨[marshal_user user7], [marshal_crop cropB], [ctA]⟩

theorem lookup_cropB :
    JSONStorage.get_crop_by_id fsB cropB.id = some cropB := rfl

theorem lookup_ctB :
    JSONStorage.get_crop_type_by_id fsB cropB.crop_type_id = some ctA := rfl

/-- An inactive crop of type t7 owned by user7. -/
def cropC : Crop := ⟨"cC", "idle", "u7", "t7", dt0, dt0, [], false⟩

/-- Store holding user7, adminU, the inactive cropC and ct7. -/
def fsC : FS :=
  JSONStorage.save ⟨[marshal_user user7, marshal_user adminU],
    [marshal_crop cropC], [ct7]⟩

theorem lookup_cropC :
    JSONStorage.get_crop_by_id fsC cropC.id = some cropC := rfl

theorem lookup_ctC :
    JSONStorage.get_crop_type_by_id fsC cropC.crop_type_id = some ct7 := rfl

/-- A crop with a non-empty condition history and valid dates. -/
def cropD : Crop :=
  ⟨"cD", "hist", "u7", "t7", dt0, ⟨2024, 1, 3, 12, 30, 5, 250000⟩,
   [⟨1, 20, 1, 1, 2⟩, ⟨2, 22, 2, 3, 4⟩], true⟩

/-- Two users sharing one id but carrying different usernames. -/
def user9a : User := ⟨"u9", "nikoloko", "h9", UserRole.user, []⟩

/-- Second write for the same id (see user9a). -/
def user9b : User := ⟨"u9", "nikoloko07", "h9", UserRole.user, []⟩

theorem lookup_user7C :
    JSONStorage.get_user_by_id fsC user7.id = some user7 := rfl

/-! ## Claim C1 -/

/-- Claim C1, amended: for every crop whose crop type has
potential_performance > 0 and whose current biomass (the last recorded
estimated_biomass, or initial_biomass when no day was yet recorded) does
not exceed potential_performance, each successful simulate_day appends a
DailyCondition whose estimated_biomass is at least the current biomass
and at most potential_performance. -/
theorem C1_growth_step_bounds (fs : FS) (crop_id user_id : String)
    (temperature rain sun_hours : ℝ) (crop : Crop) (crop_type : CropType)
    (fs' : FS) (c' : Crop)
    (hcrop : JSONStorage.get_crop_by_id fs crop_id = some crop)
    (hct : JSONStorage.get_crop_type_by_id fs crop.crop_type_id =
      some crop_type)
    (hpp : 0 < crop_type.potential_performance)
    (hcur : CropService.current_biomass crop crop_type ≤
      crop_type.potential_performance)
    (hrun : CropService.simulate_day fs crop_id user_id temperature rain
      sun_hours = (fs', Except.ok c')) :
    ∃ dc : DailyCondition,
      c'.conditions = crop.conditions ++ [dc] ∧
      CropService.current_biomass crop crop_type ≤ dc.estimated_biomass ∧
      dc.estimated_biomass ≤ crop_type.potential_performance := by
  obtain ⟨crop2, ct2, hc2, hct2, hR, hS, _, _, hlen, hc', _⟩ :=
    simulate_day_ok_inversion fs crop_id user_id temperature rain
      sun_hours fs' c' hrun
  rw [hcrop] at hc2
  injection hc2 with he
  subst he
  rw [hct] at hct2
  injection hct2 with he2
  subst he2
  have hdc : 0 < crop_type.days_cycle := by
    have : (0 : ℤ) ≤ (crop.conditions.length : ℤ) := Int.ofNat_nonneg _
    omega
  obtain ⟨hlow, hhigh⟩ := new_biomass_bounds crop crop_type temperature
    rain sun_hours hR hS hdc hpp hcur
  exact ⟨⟨(crop.conditions.length : ℤ) + 1, temperature, rain, sun_hours,
    CropService.new_biomass crop crop_type temperature rain sun_hours⟩,
    by rw [hc']; rfl, hlow, hhigh⟩

/-- Claim C1 witness: the amended theorem applied to the concrete
scenario store fs7 and its successful first simulated day. -/
theorem C1_growth_step_bounds_witness :
    ∃ dc : DailyCondition,
      (CropService.step_crop crop7 ct7 25 5 8).conditions =
        crop7.conditions ++ [dc] ∧
      CropService.current_biomass crop7 ct7 ≤ dc.estimated_biomass ∧
      dc.estimated_biomass ≤ ct7.potential_performance :=
  C1_growth_step_bounds fs7 crop7.id crop7.user_id 25 5 8 crop7 ct7
    (JSONStorage.save_crop fs7 (CropService.step_crop crop7 ct7 25 5 8))
    (CropService.step_crop crop7 ct7 25 5 8)
    lookup_crop7 lookup_ct7 (by norm_num [ct7])
    (by simp [CropService.current_biomass, crop7, ct7]) run7

/-- Claim C1 counterexample: for the crop type ct1x with
initial_biomass 200 greater than potential_performance 100, the first
successful simulate_day records estimated_biomass 100, which is smaller
than the initial biomass 200 — so the recorded sequence is not
non-decreasing relative to initial_biomass even though
potential_performance > 0, refuting the claim as stated. -/
theorem C1_counterexample :
    ((CropService.simulate_day fs1x crop1x.id crop1x.user_id 25 5 8).2.map
      fun c => c.conditions.map fun dc => dc.estimated_biomass) =
      Except.ok [(100 : ℝ)] ∧
    ct1x.initial_biomass = 200 ∧ 0 < ct1x.potential_performance ∧
    ¬((200 : ℝ) ≤ 100) := by
  have hcap : CropService.calculate_capacity_factor crop1x ct1x = 0 := by
    unfold CropService.calculate_capacity_factor CropService.current_biomass
    simp only [crop1x, ct1x, List.getLast?_nil]
    rw [max_eq_left (by norm_num)]
  have hnb : CropService.new_biomass crop1x ct1x 25 5 8 = 100 := by
    unfold CropService.new_biomass CropService.calculate_growth
    rw [hcap, mul_zero, Real.zero_rpow (by norm_num), mul_zero, add_zero]
    unfold CropService.current_biomass
    simp only [crop1x, ct1x, List.getLast?_nil]
    rw [min_eq_right (by norm_num)]
  refine ⟨?_, rfl, by norm_num [ct1x], by norm_num⟩
  rw [run1x]
  simp [Except.map, CropService.step_crop, hnb,
    show crop1x.conditions = [] from rfl]

/-! ## Claim C7 -/

theorem env_factor_scenario :
    CropService.calculate_environment_factor ct7 25 5 8 = 1 := by
  unfold CropService.calculate_environment_factor
  rw [show ct7.optimal_temp = 25 from rfl,
    show ct7.needed_water = 5 from rfl, show ct7.needed_light = 8 from rfl,
    if_pos (by norm_num : (0 : ℝ) < 5), if_pos (by norm_num : (0 : ℝ) < 8),
    show |(25 : ℝ) - 25| = 0 by norm_num]
  rw [show (1 : ℝ) - 0 / 25 * 0.5 = 1 by norm_num,
    max_eq_right (by norm_num : (0 : ℝ) ≤ 1),
    show (5 : ℝ) / 5 = 1 by norm_num, show (8 : ℝ) / 8 = 1 by norm_num,
    min_self]
  norm_num

theorem phase_factor_scenario :
    CropService.calculate_phase_factor crop7 ct7 = 0.75 := by
  have hph : CropService.phase crop7 ct7 = 0.1 := by
    unfold CropService.phase
    simp only [crop7, ct7, List.length_nil]
    norm_num
  unfold CropService.calculate_phase_factor
  rw [hph, if_pos (by norm_num : (0.1 : ℝ) < 0.2)]
  norm_num

theorem capacity_factor_scenario :
    CropService.calculate_capacity_factor crop7 ct7 = 0.99 := by
  unfold CropService.calculate_capacity_factor CropService.current_biomass
  simp only [crop7, ct7, List.getLast?_nil]
  rw [max_eq_right (by norm_num)]
  norm_num

theorem new_biomass_scenario :
    1 < CropService.new_biomass crop7 ct7 25 5 8 ∧
    CropService.new_biomass crop7 ct7 25 5 8 < 100 := by
  have hbase0 : (0 : ℝ) < 1 * 0.75 * 0.99 := by norm_num
  have hbase1 : (1 : ℝ) * 0.75 * 0.99 < 1 := by norm_num
  have hp0 : (0 : ℝ) < (1 * 0.75 * 0.99 : ℝ) ^ (1.5 : ℝ) :=
    Real.rpow_pos_of_pos hbase0 _
  have hp1 : ((1 : ℝ) * 0.75 * 0.99 : ℝ) ^ (1.5 : ℝ) < 1 :=
    Real.rpow_lt_one hbase0.le hbase1 (by norm_num)
  have hgrow : CropService.calculate_growth ct7 1 0.75 0.99 =
      100 * 0.05 * ((1 * 0.75 * 0.99 : ℝ) ^ (1.5 : ℝ)) := by
    unfold CropService.calculate_growth
    rw [show ct7.potential_performance = 100 from rfl]
  have hcb : CropService.current_biomass crop7 ct7 = 1 := by
    unfold CropService.current_biomass
    simp only [crop7, ct7, List.getLast?_nil]
  unfold CropService.new_biomass
  rw [env_factor_scenario, phase_factor_scenario, capacity_factor_scenario,
    hgrow, hcb, show ct7.potential_performance = 100 from rfl,
    min_eq_left (by nlinarith)]
  constructor <;> nlinarith

/-- Claim C7: in the documented scenario (ct7 with optimal_temp 25,
needed_water 5, needed_light 8, days_cycle 10, initial_biomass 1,
potential_performance 100), the first simulate_day(T=25, R=5, S=8) on a
fresh crop computes environment factor 1.0, phase 0.1 hence phase factor
0.75, capacity factor 0.99, and records an estimated_biomass strictly
between 1 and 100. -/
theorem C7_scenario_first_day :
    CropService.calculate_environment_factor ct7 25 5 8 = 1 ∧
    CropService.phase crop7 ct7 = 0.1 ∧
    CropService.calculate_phase_factor crop7 ct7 = 0.75 ∧
    CropService.calculate_capacity_factor crop7 ct7 = 0.99 ∧
    ∃ fs' c', CropService.simulate_day fs7 crop7.id crop7.user_id 25 5 8 =
        (fs', Except.ok c') ∧
      ∃ dc, c'.conditions = [dc] ∧ 1 < dc.estimated_biomass ∧
        dc.estimated_biomass < 100 := by
  refine ⟨env_factor_scenario, ?_, phase_factor_scenario,
    capacity_factor_scenario,
    JSONStorage.save_crop fs7 (CropService.step_crop crop7 ct7 25 5 8),
    CropService.step_crop crop7 ct7 25 5 8, run7,
    ⟨(crop7.conditions.length : ℤ) + 1, 25, 5, 8,
      CropService.new_biomass crop7 ct7 25 5 8⟩, ?_,
    new_biomass_scenario.1, new_biomass_scenario.2⟩
  · unfold CropService.phase
    simp only [crop7, ct7, List.length_nil]
    norm_num
  · rfl

/-! ## Claim C2 -/

/-- Claim C2, amended: simulate_day never modifies the active flag — in
particular, after exactly days_cycle successful simulations a fresh crop
has len(conditions) = days_cycle with active still true — and the only
operation that changes active is update_crops, which (for the owner or
an admin) sets it to whichever Boolean value is supplied, in either
direction, so the deactivation is neither automatic nor one-way. -/
theorem C2_active_flag_amended :
    (∀ (fs : FS) (crop_id user_id : String) (temperature rain sun_hours : ℝ)
      (fs' : FS) (c' crop : Crop),
      CropService.simulate_day fs crop_id user_id temperature rain
        sun_hours = (fs', Except.ok c') →
      JSONStorage.get_crop_by_id fs crop_id = some crop →
      c'.active = crop.active) ∧
    (∀ (fs : FS) (crop_id requesting_user_id : String) (b : Bool)
      (u : User) (crop : Crop),
      JSONStorage.get_user_by_id fs requesting_user_id = some u →
      JSONStorage.get_crop_by_id fs crop_id = some crop →
      crop.user_id = requesting_user_id →
      CropService.update_crops fs crop_id requesting_user_id
        [CropService.UpdateField.active b] =
        (JSONStorage.save_crop fs { crop with active := b },
         Except.ok { crop with active := b })) := by
  constructor
  · intro fs crop_id user_id temperature rain sun_hours fs' c' crop hrun
      hcrop
    obtain ⟨crop2, ct2, hc2, _, _, _, _, _, _, hc', _⟩ :=
      simulate_day_ok_inversion fs crop_id user_id temperature rain
        sun_hours fs' c' hrun
    rw [hcrop] at hc2
    injection hc2 with he
    subst he
    rw [hc']
    rfl
  · intro fs crop_id requesting_user_id b u crop huser hcrop hown
    unfold CropService.update_crops
    simp only [huser, hcrop]
    rw [if_neg fun hcon => hcon.1 hown.symm,
      if_neg (by simp [CropService.UpdateField.is_allowed])]
    rfl

/-- Claim C2 witness: the amended theorem at the concrete store fs7
(the successful day leaves active untouched) and at the concrete store
fsC (update_crops turns the inactive cropC active again). -/
theorem C2_active_flag_amended_witness :
    (CropService.step_crop crop7 ct7 25 5 8).active = crop7.active ∧
    CropService.update_crops fsC cropC.id user7.id
      [CropService.UpdateField.active true] =
      (JSONStorage.save_crop fsC { cropC with active := true },
       Except.ok { cropC with active := true }) :=
  ⟨C2_active_flag_amended.1 fs7 crop7.id crop7.user_id 25 5 8
    (JSONStorage.save_crop fs7 (CropService.step_crop crop7 ct7 25 5 8))
    (CropService.step_crop crop7 ct7 25 5 8) crop7 run7 lookup_crop7,
   C2_active_flag_amended.2 fsC cropC.id user7.id true user7 cropC
    lookup_user7C lookup_cropC rfl⟩

/-- Claim C2 counterexample: with the one-day crop type ctA, the single
(days_cycle-th) successful simulate_day leaves the crop with
len(conditions) = days_cycle = 1 and active still true — the code never
flips active to false when the cycle completes, refuting the claimed
transition. -/
theorem C2_counterexample :
    ((CropService.simulate_day fsA cropA.id cropA.user_id 25 5 8).2.map
      fun c => (c.conditions.length, c.active)) = Except.ok (1, true) ∧
    ctA.days_cycle = 1 := by
  constructor
  · rw [runA]
    simp [Except.map, CropService.step_crop, cropA]
  · rfl

/-! ## Claim C3 -/

/-- Identifier drawn for the created crop in the C3 witness. -/
def new_id3 : String := "cNew"

/-- Name given to the created crop in the C3 witness. -/
def name3 : String := "Tomatera"

/-- Claim C3: for every existing user, existing crop type and non-blank
name, create_crop persists and returns a new Crop with empty conditions,
active = true and last_sim_date = start_date (and the persisted crop can
be re-read by its id); blank or whitespace-only names raise an
invalid-input error. -/
theorem C3_create_crop :
    (∀ (fs : FS) (new_crop_id name crop_type_id user_id : String)
      (start_date : DateTime) (u : User) (ct : CropType),
      JSONStorage.get_user_by_id fs user_id = some u →
      JSONStorage.get_crop_type_by_id fs crop_type_id = some ct →
      CropService.is_blank name = false →
      CropService.create_crop fs new_crop_id name crop_type_id user_id
        start_date =
        (JSONStorage.save_crop fs
          ⟨new_crop_id, name, user_id, crop_type_id, start_date,
           start_date, [], true⟩,
         Except.ok
          (⟨new_crop_id, name, user_id, crop_type_id, start_date,
            start_date, [], true⟩ : Crop)) ∧
      (start_date.Valid →
        JSONStorage.get_crop_by_id
          (CropService.create_crop fs new_crop_id name crop_type_id
            user_id start_date).1 new_crop_id =
          some ⟨new_crop_id, name, user_id, crop_type_id, start_date,
                start_date, [], true⟩)) ∧
    (∀ (fs : FS) (new_crop_id name crop_type_id user_id : String)
      (start_date : DateTime) (u : User) (ct : CropType),
      JSONStorage.get_user_by_id fs user_id = some u →
      JSONStorage.get_crop_type_by_id fs crop_type_id = some ct →
      CropService.is_blank name = true →
      CropService.create_crop fs new_crop_id name crop_type_id user_id
        start_date = (fs, Except.error CultivaLabError.invalid_input)) := by
  constructor
  · intro fs new_crop_id name crop_type_id user_id start_date u ct huser
      hct hblank
    have hcc : CropService.create_crop fs new_crop_id name crop_type_id
        user_id start_date =
        (JSONStorage.save_crop fs
          ⟨new_crop_id, name, user_id, crop_type_id, start_date,
           start_date, [], true⟩,
         Except.ok
          (⟨new_crop_id, name, user_id, crop_type_id, start_date,
            start_date, [], true⟩ : Crop)) := by
      unfold CropService.create_crop
      rw [if_neg (by simp [huser]), if_neg (by simp [hct]),
        if_neg (by simp [hblank])]
    refine ⟨hcc, fun hv => ?_⟩
    rw [hcc]
    exact save_crop_roundtrip fs
      ⟨new_crop_id, name, user_id, crop_type_id, start_date, start_date,
       [], true⟩ hv hv
  · intro fs new_crop_id name crop_type_id user_id start_date u ct huser
      hct hblank
    unfold CropService.create_crop
    rw [if_neg (by simp [huser]), if_neg (by simp [hct]),
      if_pos (by simp [hblank])]

/-- Claim C3 witness: create_crop on the concrete store fs7 with the
existing user7, existing crop type ct7 and the non-blank name3. -/
theorem C3_create_crop_witness :
    CropService.create_crop fs7 new_id3 name3 ct7.id user7.id dt0 =
      (JSONStorage.save_crop fs7
        ⟨new_id3, name3, user7.id, ct7.id, dt0, dt0, [], true⟩,
       Except.ok
        (⟨new_id3, name3, user7.id, ct7.id, dt0, dt0, [], true⟩ : Crop)) ∧
    (dt0.Valid →
      JSONStorage.get_crop_by_id
        (CropService.create_crop fs7 new_id3 name3 ct7.id user7.id dt0).1
        new_id3 =
        some ⟨new_id3, name3, user7.id, ct7.id, dt0, dt0, [], true⟩) :=
  C3_create_crop.1 fs7 new_id3 name3 ct7.id user7.id dt0 user7 ct7
    lookup_user7 rfl rfl

/-! ## Claim C4 -/

/-- Claim C4: for every stored crop whose conditions list has already
reached its crop type's days_cycle, simulate_day called by the owner
with in-range weather inputs raises an invalid-input error and leaves
the file state unchanged (in particular, the (days_cycle+1)-th call on a
fresh crop is rejected this way). -/
theorem C4_completed_cycle_rejected (fs : FS) (crop_id : String)
    (temperature rain sun_hours : ℝ) (crop : Crop) (ct : CropType)
    (hcrop : JSONStorage.get_crop_by_id fs crop_id = some crop)
    (hct : JSONStorage.get_crop_type_by_id fs crop.crop_type_id = some ct)
    (hT1 : ¬(56.7 ≤ temperature)) (hT2 : ¬(temperature < -10))
    (hR : ¬(rain < 0)) (hS1 : ¬(sun_hours < 0)) (hS2 : ¬(24 < sun_hours))
    (hlen : ct.days_cycle ≤ (crop.conditions.length : ℤ)) :
    CropService.simulate_day fs crop_id crop.user_id temperature rain
      sun_hours = (fs, Except.error CultivaLabError.invalid_input) := by
  unfold CropService.simulate_day
  rw [if_neg (not_or.mpr ⟨hT1, hT2⟩), if_neg hR,
    if_neg (not_or.mpr ⟨hS1, hS2⟩)]
  simp only [hcrop, hct]
  cases hav : crop.active
  · rw [if_pos rfl]
  · rw [if_neg (by simp), if_neg (by simp), if_pos hlen]

/-- Claim C4 witness: the completed one-day-cycle crop cropB rejects a
further owner simulation with an invalid-input error. -/
theorem C4_completed_cycle_rejected_witness :
    CropService.simulate_day fsB cropB.id cropB.user_id 20 1 1 =
      (fsB, Except.error CultivaLabError.invalid_input) :=
  C4_completed_cycle_rejected fsB cropB.id 20 1 1 cropB ctA lookup_cropB
    lookup_ctB (by norm_num) (by norm_num) (by norm_num) (by norm_num)
    (by norm_num) (by simp [cropB, ctA])

/-! ## Claim C5 -/

/-- Claim C5: simulate_day validates temperature in [-10, 56.7) (the
lower bound passes, 56.7 is rejected), rain >= 0 (-0.01 rejected) and
sun_hours in [0, 24] (24.01 rejected), raising an invalid-input error
before any storage lookup — for every file state, including one whose
crop lookup would fail — and leaving the file state unchanged; with
temperature -10 the weather gate passes and the (empty) store lookup is
reached. -/
theorem C5_weather_validation :
    (∀ (fs : FS) (crop_id user_id : String)
      (temperature rain sun_hours : ℝ),
      (56.7 ≤ temperature ∨ temperature < -10 ∨ rain < 0 ∨
        sun_hours < 0 ∨ 24 < sun_hours) →
      CropService.simulate_day fs crop_id user_id temperature rain
        sun_hours = (fs, Except.error CultivaLabError.invalid_input)) ∧
    (∀ (fs : FS) (crop_id user_id : String),
      CropService.simulate_day fs crop_id user_id 56.7 1 1 =
        (fs, Except.error CultivaLabError.invalid_input)) ∧
    (∀ crop_id user_id : String,
      CropService.simulate_day none crop_id user_id (-10) 1 1 =
        (none, Except.error CultivaLabError.crop_not_found)) ∧
    (∀ (fs : FS) (crop_id user_id : String),
      CropService.simulate_day fs crop_id user_id 20 (-0.01) 1 =
        (fs, Except.error CultivaLabError.invalid_input)) ∧
    (∀ (fs : FS) (crop_id user_id : String),
      CropService.simulate_day fs crop_id user_id 20 1 24.01 =
        (fs, Except.error CultivaLabError.invalid_input)) := by
  refine ⟨?_, ?_, ?_, ?_, ?_⟩
  · intro fs crop_id user_id temperature rain sun_hours h
    unfold CropService.simulate_day
    by_cases h1 : 56.7 ≤ temperature ∨ temperature < -10
    · rw [if_pos h1]
    rw [if_neg h1]
    by_cases h2 : rain < 0
    · rw [if_pos h2]
    rw [if_neg h2]
    by_cases h3 : sun_hours < 0 ∨ 24 < sun_hours
    · rw [if_pos h3]
    rw [if_neg h3]
    exfalso
    rcases h with h | h | h | h | h
    · exact h1 (Or.inl h)
    · exact h1 (Or.inr h)
    · exact h2 h
    · exact h3 (Or.inl h)
    · exact h3 (Or.inr h)
  · intro fs crop_id user_id
    unfold CropService.simulate_day
    rw [if_pos (by norm_num)]
  · intro crop_id user_id
    unfold CropService.simulate_day
    rw [if_neg (by norm_num), if_neg (by norm_num), if_neg (by norm_num)]
    simp [JSONStorage.get_crop_by_id, JSONStorage.read,
      JSONStorage.find_crop]
  · intro fs crop_id user_id
    unfold CropService.simulate_day
    rw [if_neg (by norm_num), if_pos (by norm_num)]
  · intro fs crop_id user_id
    unfold CropService.simulate_day
    rw [if_neg (by norm_num), if_neg (by norm_num), if_pos (by norm_num)]

/-- Claim C5 witness: an out-of-range temperature is rejected with
invalid-input on the empty store, whose crop lookup is never reached. -/
theorem C5_weather_validation_witness :
    CropService.simulate_day none crop7.id crop7.user_id 60 1 1 =
      (none, Except.error CultivaLabError.invalid_input) :=
  C5_weather_validation.1 none crop7.id crop7.user_id 60 1 1 (by norm_num)

/-! ## Claim C6 -/

/-- Claim C6, amended: for every ACTIVE stored crop with an existing
crop type and in-range weather inputs, simulate_day raises an ownership
error for every requesting user id that differs from crop.user_id —
including an ADMIN caller, since the check consults no role — whereas
the read operation get_crop_by_id succeeds for an existing ADMIN caller
who is not the owner. -/
theorem C6_ownership_amended :
    (∀ (fs : FS) (crop_id user_id : String)
      (temperature rain sun_hours : ℝ) (crop : Crop) (ct : CropType),
      JSONStorage.get_crop_by_id fs crop_id = some crop →
      JSONStorage.get_crop_type_by_id fs crop.crop_type_id = some ct →
      ¬(56.7 ≤ temperature) → ¬(temperature < -10) → ¬(rain < 0) →
      ¬(sun_hours < 0) → ¬(24 < sun_hours) →
      crop.active = true → crop.user_id ≠ user_id →
      CropService.simulate_day fs crop_id user_id temperature rain
        sun_hours = (fs, Except.error CultivaLabError.resource_ownership)) ∧
    (∀ (fs : FS) (crop_id requesting_user_id : String) (u : User)
      (crop : Crop),
      JSONStorage.get_user_by_id fs requesting_user_id = some u →
      u.role = UserRole.admin →
      JSONStorage.get_crop_by_id fs crop_id = some crop →
      CropService.get_crop_by_id fs crop_id requesting_user_id =
        Except.ok crop) := by
  constructor
  · intro fs crop_id user_id temperature rain sun_hours crop ct hcrop hct
      hT1 hT2 hR hS1 hS2 ha hne
    unfold CropService.simulate_day
    rw [if_neg (not_or.mpr ⟨hT1, hT2⟩), if_neg hR,
      if_neg (not_or.mpr ⟨hS1, hS2⟩)]
    simp only [hcrop, hct]
    rw [if_neg (by simp [ha]), if_pos hne]
  · intro fs crop_id requesting_user_id u crop huser hrole hcrop
    unfold CropService.get_crop_by_id
    simp only [huser, hcrop]
    rw [if_neg fun hcon => hcon.2 hrole]

/-- Claim C6 witness: on the concrete store fs7, the admin caller who is
not the owner is refused simulate_day with an ownership error yet reads
the same crop successfully through get_crop_by_id. -/
theorem C6_ownership_amended_witness :
    CropService.simulate_day fs7 crop7.id adminU.id 25 5 8 =
      (fs7, Except.error CultivaLabError.resource_ownership) ∧
    CropService.get_crop_by_id fs7 crop7.id adminU.id = Except.ok crop7 :=
  ⟨C6_ownership_amended.1 fs7 crop7.id adminU.id 25 5 8 crop7 ct7
    lookup_crop7 lookup_ct7 (by norm_num) (by norm_num) (by norm_num)
    (by norm_num) (by norm_num) rfl (by decide),
   C6_ownership_amended.2 fs7 crop7.id adminU.id adminU crop7
    lookup_adminU rfl lookup_crop7⟩

/-- Claim C6 counterexample: the claim as stated quantifies over every
crop, but for the stored INACTIVE crop cropC the active check fires
before the ownership check, so the non-owner ADMIN caller receives an
invalid-input error ("already harvested"), not an ownership error. -/
theorem C6_counterexample :
    JSONStorage.get_user_by_id fsC adminU.id = some adminU ∧
    adminU.role = UserRole.admin ∧
    cropC.user_id ≠ adminU.id ∧
    CropService.simulate_day fsC cropC.id adminU.id 25 5 8 =
      (fsC, Except.error CultivaLabError.invalid_input) ∧
    CultivaLabError.invalid_input ≠ CultivaLabError.resource_ownership := by
  refine ⟨rfl, rfl, by decide, ?_, by decide⟩
  unfold CropService.simulate_day
  rw [if_neg (by norm_num), if_neg (by norm_num), if_neg (by norm_num)]
  simp only [lookup_cropC, lookup_ctC]
  rw [if_pos (show cropC.active = false from rfl)]

/-! ## Claim C8 -/

/-- Claim C8: saving a Crop with a non-empty conditions list through the
file-backed store and re-loading it by id yields the crop back field for
field — both datetime fields survive the ISO round trip and the ordered
DailyCondition sequence (estimated_biomass values included) is restored
unchanged. -/
theorem C8_persistence_roundtrip (fs : FS) (crop : Crop)
    (_hne : crop.conditions ≠ [])
    (h1 : crop.start_date.Valid) (h2 : crop.last_sim_date.Valid) :
    JSONStorage.get_crop_by_id (JSONStorage.save_crop fs crop) crop.id =
      some crop :=
  save_crop_roundtrip fs crop h1 h2

/-- Claim C8 witness: the concrete two-condition crop cropD (whose
last_sim_date has a nonzero microsecond field) round-trips through an
empty store. -/
theorem C8_persistence_roundtrip_witness :
    JSONStorage.get_crop_by_id (JSONStorage.save_crop none cropD)
      cropD.id = some cropD :=
  C8_persistence_roundtrip none cropD (by simp [cropD])
    (by norm_num [cropD, dt0, DateTime.Valid])
    (by norm_num [cropD, DateTime.Valid])

/-! ## Claim C9 -/

/-- Claim C9: save_user and save_crop are total-overwrite upserts — a
record with the same id is replaced in place at its existing position by
the full new record, otherwise the record is appended — and hence
saving a User twice with the same id and different usernames leaves
exactly one record carrying that id, the second write. -/
theorem C9_save_upsert :
    (∀ (fs : FS) (u : User),
      (∀ r ∈ (JSONStorage.read fs).users, r.id ≠ u.id) →
      (JSONStorage.read (JSONStorage.save_user fs u)).users =
        (JSONStorage.read fs).users ++ [marshal_user u]) ∧
    (∀ (fs : FS) (u : User) (l1 : List UserJson) (r : UserJson)
      (l2 : List UserJson),
      (JSONStorage.read fs).users = l1 ++ r :: l2 → r.id = u.id →
      (∀ r' ∈ l1, r'.id ≠ u.id) →
      (JSONStorage.read (JSONStorage.save_user fs u)).users =
        l1 ++ marshal_user u :: l2) ∧
    (∀ (fs : FS) (c : Crop),
      (∀ r ∈ (JSONStorage.read fs).crops, r.id ≠ c.id) →
      (JSONStorage.read (JSONStorage.save_crop fs c)).crops =
        (JSONStorage.read fs).crops ++ [marshal_crop c]) ∧
    (∀ (fs : FS) (c : Crop) (l1 : List CropJson) (r : CropJson)
      (l2 : List CropJson),
      (JSONStorage.read fs).crops = l1 ++ r :: l2 → r.id = c.id →
      (∀ r' ∈ l1, r'.id ≠ c.id) →
      (JSONStorage.read (JSONStorage.save_crop fs c)).crops =
        l1 ++ marshal_crop c :: l2) ∧
    (∀ (fs : FS) (u1 u2 : User), u1.id = u2.id →
      (∀ r ∈ (JSONStorage.read fs).users, r.id ≠ u1.id) →
      ((JSONStorage.read (JSONStorage.save_user
          (JSONStorage.save_user fs u1) u2)).users.filter
        fun r => r.id == u2.id) = [marshal_user u2] ∧
      (JSONStorage.read (JSONStorage.save_user
          (JSONStorage.save_user fs u1) u2)).users.length =
        (JSONStorage.read fs).users.length + 1 ∧
      (marshal_user u2).username = u2.username) := by
  refine ⟨?_, ?_, ?_, ?_, ?_⟩
  · intro fs u h
    exact upsert_user_append _ _ h
  · intro fs u l1 r l2 hl hr h1
    show JSONStorage.upsert_user (JSONStorage.read fs).users
      (marshal_user u) = _
    rw [hl]
    exact upsert_user_replace l1 r l2 (marshal_user u) hr h1
  · intro fs c h
    exact upsert_crop_append _ _ h
  · intro fs c l1 r l2 hl hr h1
    show JSONStorage.upsert_crop (JSONStorage.read fs).crops
      (marshal_crop c) = _
    rw [hl]
    exact upsert_crop_replace l1 r l2 (marshal_crop c) hr h1
  · intro fs u1 u2 hid hfresh
    have h1 : (JSONStorage.read (JSONStorage.save_user fs u1)).users =
        (JSONStorage.read fs).users ++ [marshal_user u1] :=
      upsert_user_append _ _ hfresh
    have h2 : (JSONStorage.read (JSONStorage.save_user
        (JSONStorage.save_user fs u1) u2)).users =
        (JSONStorage.read fs).users ++ marshal_user u2 :: [] := by
      show JSONStorage.upsert_user
        (JSONStorage.read (JSONStorage.save_user fs u1)).users
        (marshal_user u2) = _
      rw [h1]
      refine upsert_user_replace _ _ [] (marshal_user u2) hid ?_
      intro r' hr'
      rw [show (marshal_user u2).id = u2.id from rfl, ← hid]
      exact hfresh r' hr'
    refine ⟨?_, ?_, rfl⟩
    · rw [h2, List.filter_append]
      have hl : (JSONStorage.read fs).users.filter
          (fun r => r.id == u2.id) = [] := by
        rw [List.filter_eq_nil_iff]
        intro r hr
        simp only [beq_iff_eq]
        exact hid ▸ hfresh r hr
      rw [hl]
      simp [beq_iff_eq, marshal_user]
    · rw [h2]
      simp

/-- Claim C9 witness: the two-write scenario on the empty store with
user9a and user9b sharing id "u9" and carrying different usernames. -/
theorem C9_save_upsert_witness :
    ((JSONStorage.read (JSONStorage.save_user
        (JSONStorage.save_user none user9a) user9b)).users.filter
      fun r => r.id == user9b.id) = [marshal_user user9b] ∧
    (JSONStorage.read (JSONStorage.save_user
        (JSONStorage.save_user none user9a) user9b)).users.length =
      (JSONStorage.read none).users.length + 1 ∧
    (marshal_user user9b).username = user9b.username :=
  (C9_save_upsert.2.2.2.2) none user9a user9b rfl
    (by simp [JSONStorage.read])

/-! ## Claim C10 -/

/-- Claim C10: when the backing file does not exist, read returns the
empty three-collection structure without failing, and consequently every
list getter on the fresh store returns the empty list and every lookup
getter returns an absent result. -/
theorem C10_fresh_store_getters :
    JSONStorage.read none = ⟨[], [], []⟩ ∧
    JSONStorage.get_users none = [] ∧
    (∀ user_id : String, JSONStorage.get_user_by_id none user_id = none) ∧
    (∀ username : String,
      JSONStorage.get_user_by_username none username = none) ∧
    JSONStorage.get_crops none = [] ∧
    (∀ crop_id : String, JSONStorage.get_crop_by_id none crop_id = none) ∧
    (∀ user_id : String, JSONStorage.get_crops_by_user none user_id = []) ∧
    (∀ crop_type_id : String,
      JSONStorage.get_crops_by_type none crop_type_id = []) ∧
    JSONStorage.get_active_crops none = [] ∧
    JSONStorage.get_crop_types none = [] ∧
    (∀ crop_type_id : String,
      JSONStorage.get_crop_type_by_id none crop_type_id = none) ∧
    (∀ name : String, JSONStorage.get_crop_type_by_name none name = none) :=
  ⟨rfl, rfl, fun _ => rfl, fun _ => rfl, rfl, fun _ => rfl, fun _ => rfl,
   fun _ => rfl, rfl, rfl, fun _ => rfl, fun _ => rfl⟩

/-- Claim C10 witness: the fresh-store lookups at a concrete id. -/
theorem C10_fresh_store_getters_witness :
    JSONStorage.get_user_by_id none crop7.id = none ∧
    JSONStorage.get_crop_by_id none crop7.id = none ∧
    JSONStorage.get_crop_type_by_id none crop7.id = none :=
  ⟨C10_fresh_store_getters.2.2.1 crop7.id,
   C10_fresh_store_getters.2.2.2.2.2.1 crop7.id,
   C10_fresh_store_getters.2.2.2.2.2.2.2.2.2.2.1 crop7.id⟩
